import Mathlib

/-!
Verification of the authentication / session-lifecycle subsystem of
`meowmix1337/todo` (Go).  The service orchestration (`internal/service/user.go`)
and the domain error values (`internal/model/domain/user.go`) are embedded
directly from the source.  The `AuthService` collaborator (token issuance,
refresh-token store, revocation store) is not part of the provided sources;
its state effects are modelled from the specification and marked as such.
-/

namespace Todo

/-- A Go `error` value.  `errorString` is `errors.New` / a non-wrapping
`fmt.Errorf` (identified here by its message, all messages in this development
being distinct); `wrap` is `fmt.Errorf("...: %w", inner)`; `join` is
`errors.Join` at the only arity the source applies it to (three non-nil
errors). -/
inductive GoErr where
  | errorString : String → GoErr
  | wrap : String → GoErr → GoErr
  | join : GoErr → GoErr → GoErr → GoErr
deriving DecidableEq, Repr

/-- Go `errors.Is(e, target)`: identity at the root, else recurse through the
single `%w` unwrap or into every member of a join. -/
def errIs : GoErr → GoErr → Bool
  | e@(.errorString _), t => e == t
  | e@(.wrap _ inner), t => e == t || errIs inner t
  | e@(.join a b c), t => e == t || errIs a t || errIs b t || errIs c t

namespace domain

/-- `domain.ErrNoCredentialsProvided = errors.New("no credentials provided")`. -/
def ErrNoCredentialsProvided : GoErr := .errorString "no credentials provided"

/-- `domain.ErrUserNotFound = errors.New("user not found")`. -/
def ErrUserNotFound : GoErr := .errorString "user not found"

/-- `domain.ErrInvalidCredentials = errors.New("invalid credentials")`. -/
def ErrInvalidCredentials : GoErr := .errorString "invalid credentials"

/-- `domain.ErrJWTGeneration = errors.New("error generating jwt token")`. -/
def ErrJWTGeneration : GoErr := .errorString "error generating jwt token"

/-- `domain.ErrUnauthorized = errors.Join(ErrInvalidCredentials,
ErrNoCredentialsProvided, ErrUserNotFound)`. -/
def ErrUnauthorized : GoErr :=
  .join ErrInvalidCredentials ErrNoCredentialsProvided ErrUserNotFound

/-- `domain.ErrUserAlreadyExists` (referenced by `SignUp`; defined in a domain
file outside the provided sources as a distinct sentinel error). -/
def ErrUserAlreadyExists : GoErr := .errorString "user already exists"

/-- One nanosecond, the unit of Go `time.Duration`. -/
def timeNanosecond : Int := 1

/-- Go `time.Hour` as a `time.Duration` (nanoseconds). -/
def timeHour : Int := 3600 * 1000000000 * timeNanosecond

/-- `domain.JWTExpiration = time.Hour * 72`. -/
def JWTExpiration : Int := timeHour * 72

/-- `domain.User`. -/
structure User where
  id : Nat
  uuid : String
  email : String
  password : String
deriving DecidableEq, Repr

/-- `domain.UserSignup`. -/
structure UserSignup where
  email : String
  password : String
deriving DecidableEq, Repr

/-- `domain.UserCredentials`. -/
structure UserCredentials where
  email : String
  password : String
deriving DecidableEq, Repr

/-- `domain.JWTCustomClaims`: the fields `Logout` reads (`UserID`,
`ExpiresAt.Time`, and the token besides). -/
structure JWTCustomClaims where
  userID : Nat
  expiresAt : Int
deriving DecidableEq, Repr

end domain

/-- `sql.ErrNoRows` from `database/sql`. -/
def sqlErrNoRows : GoErr := .errorString "sql: no rows in result set"

/-- `bcrypt.ErrMismatchedHashAndPassword`. -/
def bcryptErrMismatchedHashAndPassword : GoErr :=
  .errorString "crypto/bcrypt: hashedPassword is not the hash of the given password"

/-- Modelled from the spec: error returned by `authService.ByRefreshToken`
when no stored record matches (`RefreshTokenStore.Get` fails with `NotFound`;
the caller logs "could not find refresh token" and propagates it).  The
implementation of `AuthService` is outside the provided sources. -/
def errRefreshTokenNotFound : GoErr := .errorString "refresh token not found"

/-- `endpoint.JWTResponse`: the pair of tokens returned by `Login` and
`RefreshToken`. -/
structure JWTResponse where
  token : String
  refreshToken : String
deriving DecidableEq, Repr

/-- Modelled from the spec: the shared session state held by the two external
stores — the `RefreshTokenStore` (one record per user: opaque token value and
`expiresAt`) and the `RevocationStore` (denylist of access tokens).  The store
implementations are outside the provided sources. -/
structure AuthState where
  refreshRecords : List (Nat × String × Int)
  revoked : List (String × Nat × Int)
deriving DecidableEq, Repr

/-- `RevocationStore.Contains`: is this access token on the denylist? -/
def isRevoked (s : AuthState) (token : String) : Bool :=
  s.revoked.any (fun e => e.1 = token)

/-- Look up the single stored refresh record for a user. -/
def lookupRefresh (s : AuthState) (uid : Nat) : Option (String × Int) :=
  (s.refreshRecords.find? (fun p => p.1 = uid)).map (fun p => p.2)

/-- Overwrite the refresh record for a user (single-record-per-user policy). -/
def putRefresh (s : AuthState) (uid : Nat) (tok : String) (exp : Int) : AuthState :=
  { s with refreshRecords :=
      (uid, tok, exp) :: s.refreshRecords.filter (fun p => p.1 ≠ uid) }

/-- Remove the refresh record for a user (idempotent). -/
def removeRefresh (s : AuthState) (uid : Nat) : AuthState :=
  { s with refreshRecords := s.refreshRecords.filter (fun p => p.1 ≠ uid) }

/-- The environment of one service call: the current time and the outcomes of
every collaborator step the Go code can observe — repository lookups, bcrypt
results, token generation, and store writes.  `none` in an `Option GoErr`
field means the step succeeds; quantifying over `Env` quantifies over every
behaviour of the collaborators. -/
structure Env where
  now : Int
  byEmailResult : Except GoErr domain.User
  byEmailPwResult : Except GoErr domain.User
  compareResult : Option GoErr
  hashResult : Except GoErr String
  genTokenResult : Except GoErr String
  genRefreshValue : Except GoErr String
  blacklistResult : Option GoErr
  deleteResult : Option GoErr
  createResult : Option GoErr
  uuid : String
deriving Repr

/-- Modelled from the spec: refresh tokens carry a "fixed long TTL"; the exact
value is a configuration constant outside the provided sources (seven days
here; no claim depends on the value). -/
def refreshTokenTTL : Int := 7 * 24 * domain.timeHour

/-- Modelled from the spec: `authService.GenerateToken(ctx, user)` issues a
signed access token and persists nothing (access tokens are not stored).  The
outcome is taken from the environment. -/
def generateToken (env : Env) : Except GoErr String :=
  env.genTokenResult

/-- Modelled from the spec: `authService.GenerateRefreshToken(ctx, userID)`
issues a new refresh token (random value, fixed long TTL) and persists the
refresh record, overwriting any existing record for that user; on failure no
record is written. -/
def generateRefreshToken (env : Env) (s : AuthState) (uid : Nat) :
    Except GoErr String × AuthState :=
  match env.genRefreshValue with
  | .error e => (.error e, s)
  | .ok v => (.ok v, putRefresh s uid v (env.now + refreshTokenTTL))

/-- Modelled from the spec: `authService.BlacklistToken(ctx, token, userID,
expiresAt)` adds a `(token, userID, expiresAt)` revocation entry to the
`RevocationStore`; on failure the store is unchanged. -/
def blacklistToken (env : Env) (s : AuthState) (token : String) (uid : Nat)
    (expiresAt : Int) : Except GoErr Unit × AuthState :=
  match env.blacklistResult with
  | some e => (.error e, s)
  | none => (.ok (), { s with revoked := (token, uid, expiresAt) :: s.revoked })

/-- Modelled from the spec: `authService.DeleteRefreshToken(ctx, userID)`
removes the user's refresh record (idempotent); on failure the store is
unchanged. -/
def deleteRefreshToken (env : Env) (s : AuthState) (uid : Nat) :
    Except GoErr Unit × AuthState :=
  match env.deleteResult with
  | some e => (.error e, s)
  | none => (.ok (), removeRefresh s uid)

/-- Modelled from the spec: `authService.ByRefreshToken(ctx, userID, token)`
fetches the stored refresh record for the user and rejects the call when no
record exists or the presented token does not match the stored value. -/
def byRefreshToken (s : AuthState) (uid : Nat) (presented : String) :
    Except GoErr (String × Int) :=
  match lookupRefresh s uid with
  | none => .error errRefreshTokenNotFound
  | some (v, exp) =>
    if presented = v then .ok (v, exp) else .error errRefreshTokenNotFound

namespace userService

open domain

/-- `userService.ByEmail` (`internal/service/user.go:167`): delegate to
`userRepo.ByEmail`; map `sql.ErrNoRows` to a wrap of `ErrUserNotFound`, pass
every other repository error through unchanged. -/
def ByEmail (env : Env) (email : String) : Except GoErr User :=
  match env.byEmailResult with
  | .error err =>
    if errIs err sqlErrNoRows then
      .error (.wrap "user not found" ErrUserNotFound)
    else
      .error err
  | .ok user => .ok user

/-- `userService.ByEmailWithPassword` (`internal/service/user.go:180`): same
shape as `ByEmail`, against `userRepo.ByEmailWithPassword`. -/
def ByEmailWithPassword (env : Env) (email : String) : Except GoErr User :=
  match env.byEmailPwResult with
  | .error err =>
    if errIs err sqlErrNoRows then
      .error (.wrap "user not found" ErrUserNotFound)
    else
      .error err
  | .ok user => .ok user

/-- `userService.SignUp` (`internal/service/user.go:47`).  The second
component records whether `userRepo.Create` was invoked. -/
def SignUp (env : Env) (userSignup : Option UserSignup) : Except GoErr Unit × Bool :=
  match userSignup with
  | none => (.error (.errorString "no user sign up details provided"), false)
  | some su =>
    match ByEmail env su.email with
    | .error err =>
      if errIs err ErrUserNotFound then
        match env.hashResult with
        | .error e => (.error e, false)
        | .ok _hashedPassword =>
          match env.createResult with
          | some e => (.error (.wrap "error creating user" e), true)
          | none => (.ok (), true)
      else
        (.error err, false)
    | .ok _user => (.error ErrUserAlreadyExists, false)

/-- `userService.Login` (`internal/service/user.go:80`).  Returns the token
pair and the session state (the refresh record persisted by
`GenerateRefreshToken`). -/
def Login (env : Env) (s : AuthState) (userCredentials : Option UserCredentials) :
    Except GoErr JWTResponse × AuthState :=
  match userCredentials with
  | none =>
    (.error (.wrap "no user login credentials provided" ErrNoCredentialsProvided), s)
  | some creds =>
    match ByEmailWithPassword env creds.email with
    | .error err => (.error err, s)
    | .ok user =>
      match env.compareResult with
      | some err =>
        if errIs err bcryptErrMismatchedHashAndPassword then
          (.error (.wrap "invalid credentials" ErrInvalidCredentials), s)
        else
          (.error err, s)
      | none =>
        match generateToken env with
        | .error err => (.error err, s)
        | .ok token =>
          match generateRefreshToken env s user.id with
          | (.error err, s') => (.error err, s')
          | (.ok refreshToken, s') =>
            (.ok ⟨token, refreshToken⟩, s')

/-- `userService.Logout` (`internal/service/user.go:117`): blacklist the
access token, then delete the user's refresh record. -/
def Logout (env : Env) (s : AuthState) (token : String) (claims : JWTCustomClaims) :
    Except GoErr Unit × AuthState :=
  match blacklistToken env s token claims.userID claims.expiresAt with
  | (.error err, s') => (.error err, s')
  | (.ok _, s') => deleteRefreshToken env s' claims.userID

/-- `userService.RefreshToken` (`internal/service/user.go:126`): validate the
stored refresh record, reject (and delete) when expired, otherwise issue a new
access token and refresh token and blacklist the old access token. -/
def RefreshToken (env : Env) (s : AuthState) (jwtToken : String) (user : User)
    (refreshToken : String) (expiresAt : Int) :
    Except GoErr JWTResponse × AuthState :=
  match byRefreshToken s user.id refreshToken with
  | .error err => (.error err, s)
  | .ok (_rtValue, rtExpiresAt) =>
    if rtExpiresAt < env.now then
      match deleteRefreshToken env s user.id with
      | (.error err, s') => (.error err, s')
      | (.ok _, s') => (.error ErrUnauthorized, s')
    else
      match generateToken env with
      | .error err => (.error err, s)
      | .ok newJwtToken =>
        match generateRefreshToken env s user.id with
        | (.error err, s') => (.error err, s')
        | (.ok newRefreshToken, s') =>
          match blacklistToken env s' jwtToken user.id expiresAt with
          | (.error err, s'') => (.error err, s'')
          | (.ok _, s'') => (.ok ⟨newJwtToken, newRefreshToken⟩, s'')

end userService

/-- A registered user used in concrete evaluations. -/
def userW : domain.User := ⟨1, "uuid-1", "a@x.com", "hash-1"⟩

/-- A collaborator environment in which every step succeeds: the user is
registered, the password matches, and every store write goes through. -/
def baseEnv : Env where
  now := 1000
  byEmailResult := .ok userW
  byEmailPwResult := .ok userW
  compareResult := none
  hashResult := .ok "hashed-pw"
  genTokenResult := .ok "access-2"
  genRefreshValue := .ok "refresh-2"
  blacklistResult := none
  deleteResult := none
  createResult := none
  uuid := "uuid-new"

/-- A transient backing-store failure (not a missing row). -/
def storeFailure : GoErr := .errorString "connection timed out"

/-- The environment of a login attempt whose email is not registered: the
repository lookup reports `sql.ErrNoRows`. -/
def envUnknownEmail : Env := { baseEnv with byEmailPwResult := .error sqlErrNoRows }

/-- The environment of a login attempt with a registered email but a password
that does not match the stored hash: bcrypt reports a mismatch. -/
def envWrongPassword : Env :=
  { baseEnv with compareResult := some bcryptErrMismatchedHashAndPassword }

/-- An environment in which the revocation-store insert fails. -/
def envBlacklistFail : Env := { baseEnv with blacklistResult := some storeFailure }

/-- An environment in which the user lookup fails with a transient store
failure rather than a missing row. -/
def envStoreFail : Env := { baseEnv with byEmailPwResult := .error storeFailure }

/-- The empty session state. -/
def s0 : AuthState := ⟨[], []⟩

/-- A session state whose stored refresh record for `userW` is still live at
`baseEnv.now = 1000`. -/
def sLive : AuthState := ⟨[(1, "refresh-1", 2000)], []⟩

/-- A session state whose stored refresh record for `userW` has already
expired at `baseEnv.now = 1000`. -/
def sExpired : AuthState := ⟨[(1, "refresh-1", 500)], []⟩

/-- Looking up the record just written by `putRefresh` returns it. -/
theorem lookupRefresh_putRefresh_self (s : AuthState) (uid : Nat) (tok : String)
    (exp : Int) : lookupRefresh (putRefresh s uid tok exp) uid = some (tok, exp) := by
  simp [lookupRefresh, putRefresh]

/-- After `removeRefresh` the user has no stored refresh record. -/
theorem lookupRefresh_removeRefresh_self (s : AuthState) (uid : Nat) :
    lookupRefresh (removeRefresh s uid) uid = none := by
  have h : List.find? (fun p => decide (p.1 = uid))
      (List.filter (fun p => decide (p.1 ≠ uid)) s.refreshRecords) = none := by
    rw [List.find?_eq_none]
    intro x hx
    have hmem := (List.mem_filter.mp hx).2
    simp at hmem
    simp [hmem]
  simp [lookupRefresh, removeRefresh, h]

/-- C3 counterexample: the access-token TTL `JWTExpiration = time.Hour * 72`
is NOT strictly less than 24 hours, refuting the claim's "on the order of
hours, not days" bound at the constant itself. -/
theorem jwtExpiration_not_below_24h :
    ¬ (domain.JWTExpiration < 24 * domain.timeHour) := by
  decide

/-- C3 amended: the access-token TTL is the single configuration constant
`JWTExpiration`, whose value is 72 hours — three full days, so at least 24
hours rather than below it. -/
theorem jwtExpiration_value :
    domain.JWTExpiration = 72 * domain.timeHour ∧
    24 * domain.timeHour ≤ domain.JWTExpiration := by
  constructor
  · decide
  · decide

/-- C9: `Login` with nil credentials returns an error wrapping
`ErrNoCredentialsProvided`, issues no tokens and leaves the session state
unchanged; `SignUp` with nil sign-up details returns an error and never
invokes `userRepo.Create`. -/
theorem nil_inputs_rejected (env : Env) (s : AuthState) :
    userService.Login env s none =
      (.error (.wrap "no user login credentials provided"
        domain.ErrNoCredentialsProvided), s) ∧
    errIs (GoErr.wrap "no user login credentials provided"
      domain.ErrNoCredentialsProvided) domain.ErrNoCredentialsProvided = true ∧
    userService.SignUp env none =
      (.error (.errorString "no user sign up details provided"), false) := by
  refine ⟨rfl, by decide, rfl⟩

/-- C10: `errors.Is(ErrUnauthorized, e)` holds for each of the three joined
credential errors while the converse `errors.Is(e, ErrUnauthorized)` fails
for every one of them, fails as well for the wrapped forms that `Login` and
the lookup paths actually return, and the expired-refresh path is the one
that returns `ErrUnauthorized` itself. -/
theorem unauthorized_is_join_of_credential_errors :
    errIs domain.ErrUnauthorized domain.ErrInvalidCredentials = true ∧
    errIs domain.ErrUnauthorized domain.ErrNoCredentialsProvided = true ∧
    errIs domain.ErrUnauthorized domain.ErrUserNotFound = true ∧
    errIs domain.ErrInvalidCredentials domain.ErrUnauthorized = false ∧
    errIs domain.ErrNoCredentialsProvided domain.ErrUnauthorized = false ∧
    errIs domain.ErrUserNotFound domain.ErrUnauthorized = false ∧
    errIs (GoErr.wrap "no user login credentials provided"
      domain.ErrNoCredentialsProvided) domain.ErrUnauthorized = false ∧
    errIs (GoErr.wrap "user not found" domain.ErrUserNotFound)
      domain.ErrUnauthorized = false ∧
    errIs (GoErr.wrap "invalid credentials" domain.ErrInvalidCredentials)
      domain.ErrUnauthorized = false ∧
    (userService.RefreshToken baseEnv sExpired "access-1" userW "refresh-1"
      2000).1 = .error domain.ErrUnauthorized := by
  refine ⟨by decide, by decide, by decide, by decide, by decide, by decide,
    by decide, by decide, by decide, rfl⟩

/-- C1 evaluation: at the same credentials, a login that fails because the
email is unregistered returns an error wrapping `ErrUserNotFound`, while one
that fails because the password mismatches returns an error wrapping
`ErrInvalidCredentials`; the two returned errors are distinct and the caller
separates them with `errors.Is`, so the two causes ARE distinguishable,
contrary to the claim. -/
theorem login_failure_causes_distinguishable :
    (userService.Login envUnknownEmail s0 (some ⟨"a@x.com", "pw"⟩)).1 =
      .error (.wrap "user not found" domain.ErrUserNotFound) ∧
    (userService.Login envWrongPassword s0 (some ⟨"a@x.com", "pw"⟩)).1 =
      .error (.wrap "invalid credentials" domain.ErrInvalidCredentials) ∧
    errIs (GoErr.wrap "user not found" domain.ErrUserNotFound)
      domain.ErrUserNotFound = true ∧
    errIs (GoErr.wrap "invalid credentials" domain.ErrInvalidCredentials)
      domain.ErrUserNotFound = false ∧
    errIs (GoErr.wrap "invalid credentials" domain.ErrInvalidCredentials)
      domain.ErrInvalidCredentials = true ∧
    errIs (GoErr.wrap "user not found" domain.ErrUserNotFound)
      domain.ErrInvalidCredentials = false ∧
    GoErr.wrap "user not found" domain.ErrUserNotFound ≠
      GoErr.wrap "invalid credentials" domain.ErrInvalidCredentials := by
  refine ⟨rfl, rfl, by decide, by decide, by decide, by decide, by decide⟩

/-- C6: when the repository lookup finds an existing user for the sign-up
email, `SignUp` fails with `ErrUserAlreadyExists` and `userRepo.Create` is
never invoked. -/
theorem signup_existing_email_rejected (env : Env) (su : domain.UserSignup)
    (user : domain.User) (hfound : env.byEmailResult = .ok user) :
    userService.SignUp env (some su) = (.error domain.ErrUserAlreadyExists, false) := by
  simp [userService.SignUp, userService.ByEmail, hfound]

/-- C6 witness: sign-up with `userW`'s already-registered email in the
all-succeeding environment. -/
theorem signup_existing_email_rejected_witness :
    baseEnv.byEmailResult = .ok userW ∧
    userService.SignUp baseEnv (some ⟨"a@x.com", "pw"⟩) =
      (.error domain.ErrUserAlreadyExists, false) :=
  ⟨rfl, signup_existing_email_rejected baseEnv ⟨"a@x.com", "pw"⟩ userW rfl⟩

/-- C4: when the stored refresh record for the user exists, matches the
presented token, and has expired, and the store delete goes through,
`RefreshToken` removes the record and returns exactly `ErrUnauthorized`; the
result is an error, so no access or refresh token is issued, and the removal
is the only state change. -/
theorem refreshToken_expired_deletes_record_and_returns_unauthorized
    (env : Env) (s : AuthState) (jwtToken : String) (user : domain.User)
    (rt : String) (expiresAt rtExp : Int)
    (hrec : lookupRefresh s user.id = some (rt, rtExp))
    (hexp : rtExp < env.now)
    (hdel : env.deleteResult = none) :
    userService.RefreshToken env s jwtToken user rt expiresAt =
      (.error domain.ErrUnauthorized, removeRefresh s user.id) ∧
    lookupRefresh (removeRefresh s user.id) user.id = none ∧
    (removeRefresh s user.id).revoked = s.revoked := by
  refine ⟨?_, lookupRefresh_removeRefresh_self s user.id, rfl⟩
  simp [userService.RefreshToken, byRefreshToken, hrec, hexp,
    deleteRefreshToken, hdel]

/-- C4 witness: `userW`'s record expired at time 500, the call happens at
time 1000, and the record is gone afterwards. -/
theorem refreshToken_expired_witness :
    lookupRefresh sExpired userW.id = some ("refresh-1", 500) ∧
    (500 : Int) < baseEnv.now ∧
    baseEnv.deleteResult = none ∧
    (userService.RefreshToken baseEnv sExpired "access-1" userW "refresh-1" 2000 =
        (.error domain.ErrUnauthorized, removeRefresh sExpired userW.id) ∧
      lookupRefresh (removeRefresh sExpired userW.id) userW.id = none ∧
      (removeRefresh sExpired userW.id).revoked = sExpired.revoked) :=
  ⟨rfl, by decide, rfl,
    refreshToken_expired_deletes_record_and_returns_unauthorized baseEnv sExpired
      "access-1" userW "refresh-1" 2000 500 rfl (by decide) rfl⟩

/-- C5: if the revocation-store add fails, `Logout` returns that error and
never reports success; and whenever both store writes go through, the
revocation entry is added and the refresh record deleted for every value of
`claims.expiresAt` — the control flow never consults how close the token is
to expiry. -/
theorem logout_fails_loudly_and_runs_both_steps
    (env : Env) (s : AuthState) (token : String)
    (claims : domain.JWTCustomClaims) :
    (∀ e, env.blacklistResult = some e →
      (userService.Logout env s token claims).1 = .error e) ∧
    (env.blacklistResult = none → env.deleteResult = none →
      userService.Logout env s token claims =
        (.ok (), removeRefresh
          { s with revoked := (token, claims.userID, claims.expiresAt) :: s.revoked }
          claims.userID) ∧
      isRevoked (userService.Logout env s token claims).2 token = true ∧
      lookupRefresh (userService.Logout env s token claims).2 claims.userID = none) := by
  constructor
  · intro e he
    simp [userService.Logout, blacklistToken, he]
  · intro h1 h2
    have heq : userService.Logout env s token claims =
        (.ok (), removeRefresh
          { s with revoked := (token, claims.userID, claims.expiresAt) :: s.revoked }
          claims.userID) := by
      simp [userService.Logout, blacklistToken, deleteRefreshToken, h1, h2]
    refine ⟨heq, ?_, ?_⟩
    · rw [heq]
      simp [isRevoked, removeRefresh]
    · rw [heq]
      exact lookupRefresh_removeRefresh_self _ claims.userID

/-- C5 witness: one logout whose revocation insert fails (error surfaced) and
one in which both steps go through on a token whose claims already expired
(`expiresAt = 400 < now = 1000`). -/
theorem logout_witness :
    envBlacklistFail.blacklistResult = some storeFailure ∧
    (userService.Logout envBlacklistFail sLive "access-1" ⟨1, 400⟩).1 =
      .error storeFailure ∧
    baseEnv.blacklistResult = none ∧
    baseEnv.deleteResult = none ∧
    (userService.Logout baseEnv sLive "access-1" ⟨1, 400⟩ =
        (.ok (), removeRefresh
          { sLive with revoked := ("access-1", 1, 400) :: sLive.revoked } 1) ∧
      isRevoked (userService.Logout baseEnv sLive "access-1" ⟨1, 400⟩).2
        "access-1" = true ∧
      lookupRefresh (userService.Logout baseEnv sLive "access-1" ⟨1, 400⟩).2 1 =
        none) :=
  ⟨rfl,
    (logout_fails_loudly_and_runs_both_steps envBlacklistFail sLive "access-1"
      ⟨1, 400⟩).1 storeFailure rfl,
    rfl, rfl,
    (logout_fails_loudly_and_runs_both_steps baseEnv sLive "access-1"
      ⟨1, 400⟩).2 rfl rfl⟩

/-- C2 evaluation: with a live refresh record, when token generation and
refresh-token generation succeed but the revocation insert fails,
`RefreshToken` returns the error, yet the session state differs from the
initial one: the stored record now holds the new refresh value and the old
refresh token is rejected — a partial state change is observable, contrary to
the claim's atomicity. -/
theorem refreshToken_partial_state_on_blacklist_failure :
    (userService.RefreshToken envBlacklistFail sLive "access-1" userW
      "refresh-1" 2000).1 = .error storeFailure ∧
    (userService.RefreshToken envBlacklistFail sLive "access-1" userW
      "refresh-1" 2000).2 ≠ sLive ∧
    lookupRefresh (userService.RefreshToken envBlacklistFail sLive "access-1"
      userW "refresh-1" 2000).2 userW.id =
      some ("refresh-2", 1000 + refreshTokenTTL) ∧
    byRefreshToken (userService.RefreshToken envBlacklistFail sLive "access-1"
      userW "refresh-1" 2000).2 userW.id "refresh-1" =
      .error errRefreshTokenNotFound := by
  refine ⟨rfl, by decide, by decide, rfl⟩

/-- C7: after a successful rotation the superseded access token is present in
the `RevocationStore`, and a subsequent `RefreshToken` call presenting the
previous refresh-token value is rejected under every environment. -/
theorem refreshToken_rotation_revokes_and_rejects_old
    (env : Env) (s : AuthState) (jwtToken : String) (user : domain.User)
    (r1 newTok r2 : String) (expiresAt rtExp : Int)
    (hrec : lookupRefresh s user.id = some (r1, rtExp))
    (hnotexp : ¬ (rtExp < env.now))
    (htok : env.genTokenResult = .ok newTok)
    (hrt : env.genRefreshValue = .ok r2)
    (hfresh : r2 ≠ r1)
    (hbl : env.blacklistResult = none) :
    (userService.RefreshToken env s jwtToken user r1 expiresAt).1 =
      .ok ⟨newTok, r2⟩ ∧
    isRevoked (userService.RefreshToken env s jwtToken user r1 expiresAt).2
      jwtToken = true ∧
    ∀ env2 jwt2 exp2,
      (userService.RefreshToken env2
        (userService.RefreshToken env s jwtToken user r1 expiresAt).2
        jwt2 user r1 exp2).1 = .error errRefreshTokenNotFound := by
  have heq : userService.RefreshToken env s jwtToken user r1 expiresAt =
      (.ok ⟨newTok, r2⟩,
        { putRefresh s user.id r2 (env.now + refreshTokenTTL) with
            revoked := (jwtToken, user.id, expiresAt) ::
              (putRefresh s user.id r2 (env.now + refreshTokenTTL)).revoked }) := by
    simp [userService.RefreshToken, byRefreshToken, hrec, hnotexp,
      generateToken, htok, generateRefreshToken, hrt, blacklistToken, hbl]
  refine ⟨by rw [heq], ?_, ?_⟩
  · rw [heq]
    simp [isRevoked]
  · intro env2 jwt2 exp2
    rw [heq]
    simp [userService.RefreshToken, byRefreshToken, lookupRefresh, putRefresh,
      hfresh, Ne.symm hfresh]

/-- C7 witness: rotation of `userW`'s live record at time 1000 with fresh
values `access-2`/`refresh-2`, then a replay of `refresh-1`. -/
theorem refreshToken_rotation_witness :
    lookupRefresh sLive userW.id = some ("refresh-1", 2000) ∧
    ¬ ((2000 : Int) < baseEnv.now) ∧
    baseEnv.genTokenResult = .ok "access-2" ∧
    baseEnv.genRefreshValue = .ok "refresh-2" ∧
    ("refresh-2" : String) ≠ "refresh-1" ∧
    baseEnv.blacklistResult = none ∧
    ((userService.RefreshToken baseEnv sLive "access-1" userW "refresh-1"
        2000).1 = .ok ⟨"access-2", "refresh-2"⟩ ∧
      isRevoked (userService.RefreshToken baseEnv sLive "access-1" userW
        "refresh-1" 2000).2 "access-1" = true ∧
      ∀ env2 jwt2 exp2,
        (userService.RefreshToken env2
          (userService.RefreshToken baseEnv sLive "access-1" userW "refresh-1"
            2000).2 jwt2 userW "refresh-1" exp2).1 =
          .error errRefreshTokenNotFound) :=
  ⟨rfl, by decide, rfl, rfl, by decide, rfl,
    refreshToken_rotation_revokes_and_rejects_old baseEnv sLive "access-1"
      userW "refresh-1" "access-2" "refresh-2" 2000 2000 rfl (by decide) rfl
      rfl (by decide) rfl⟩

/-- C8: a repository error that is not `sql.ErrNoRows` and carries none of
the credential sentinels is passed through unchanged by the lookup and by
`Login` — it is never reclassified into the
`Unauthorized`/`InvalidCredentials`/`UserNotFound` class — while an absent
row (`sql.ErrNoRows`) is the one case mapped to the user-not-found error. -/
theorem store_failure_not_reclassified_as_credentials
    (env envNR : Env) (email emailNR : String) (e eNR : GoErr)
    (hres : env.byEmailPwResult = .error e)
    (hnr : errIs e sqlErrNoRows = false)
    (h1 : errIs e domain.ErrUserNotFound = false)
    (h2 : errIs e domain.ErrInvalidCredentials = false)
    (h3 : errIs e domain.ErrNoCredentialsProvided = false)
    (h4 : errIs e domain.ErrUnauthorized = false)
    (hresNR : envNR.byEmailPwResult = .error eNR)
    (hnrNR : errIs eNR sqlErrNoRows = true) :
    (userService.ByEmailWithPassword env email = .error e ∧
      (∀ s creds, (userService.Login env s (some creds)).1 = .error e) ∧
      errIs e domain.ErrUserNotFound = false ∧
      errIs e domain.ErrInvalidCredentials = false ∧
      errIs e domain.ErrNoCredentialsProvided = false ∧
      errIs e domain.ErrUnauthorized = false) ∧
    userService.ByEmailWithPassword envNR emailNR =
      .error (.wrap "user not found" domain.ErrUserNotFound) := by
  refine ⟨⟨?_, ?_, h1, h2, h3, h4⟩, ?_⟩
  · simp [userService.ByEmailWithPassword, hres, hnr]
  · intro s creds
    simp [userService.Login, userService.ByEmailWithPassword, hres, hnr]
  · simp [userService.ByEmailWithPassword, hresNR, hnrNR]

/-- C8 witness: a timed-out lookup surfaces the timeout itself from `Login`,
and a missing row surfaces the wrapped `ErrUserNotFound`. -/
theorem store_failure_witness :
    envStoreFail.byEmailPwResult = .error storeFailure ∧
    errIs storeFailure sqlErrNoRows = false ∧
    errIs storeFailure domain.ErrUserNotFound = false ∧
    errIs storeFailure domain.ErrInvalidCredentials = false ∧
    errIs storeFailure domain.ErrNoCredentialsProvided = false ∧
    errIs storeFailure domain.ErrUnauthorized = false ∧
    envUnknownEmail.byEmailPwResult = .error sqlErrNoRows ∧
    errIs sqlErrNoRows sqlErrNoRows = true ∧
    ((userService.ByEmailWithPassword envStoreFail "a@x.com" =
        .error storeFailure ∧
      (∀ s creds, (userService.Login envStoreFail s (some creds)).1 =
        .error storeFailure) ∧
      errIs storeFailure domain.ErrUserNotFound = false ∧
      errIs storeFailure domain.ErrInvalidCredentials = false ∧
      errIs storeFailure domain.ErrNoCredentialsProvided = false ∧
      errIs storeFailure domain.ErrUnauthorized = false) ∧
    userService.ByEmailWithPassword envUnknownEmail "b@x.com" =
      .error (.wrap "user not found" domain.ErrUserNotFound)) :=
  ⟨rfl, by decide, by decide, by decide, by decide, by decide, rfl, by decide,
    store_failure_not_reclassified_as_credentials envStoreFail envUnknownEmail
      "a@x.com" "b@x.com" storeFailure sqlErrNoRows rfl (by decide) (by decide)
      (by decide) (by decide) (by decide) rfl (by decide)⟩

end Todo
